import Mathlib

/-!
Shallow embedding of the `boilerplate_rust` egui/OpenGL application core
(`src/renderer/mod.rs`, `src/renderer/shader.rs`, `src/renderer/cube.rs`,
`src/main.rs`, `src/app.rs`, `src/ui/mod.rs`, `src/ui/gl_viewport.rs`).

GPU state touched by the program is modelled explicitly as a `GLState`
record; GL object allocation (shaders, programs) as a `GLObjects` record.
`f32` quantities are idealised as rationals (the claims under study are
about control flow, state restoration and exact data, not float rounding),
and the trigonometric matrix algebra of the model matrix is embedded
polymorphically over a commutative ring, with the cosine/sine of the two
rotation angles passed as ring elements.
-/

namespace Boilerplate

/-- glow::LESS. -/
def glLESS : Nat := 0x0201

/-- glow::BACK. -/
def glBACK : Nat := 0x0405

/-- glow::CCW. -/
def glCCW : Nat := 0x0901

/-- glow::VERTEX_SHADER. -/
def glVERTEX_SHADER : Nat := 0x8B31

/-- glow::FRAGMENT_SHADER. -/
def glFRAGMENT_SHADER : Nat := 0x8B30

/-- The GPU global state that the embedded code reads or writes:
the viewport rectangle `(x, y, width, height)` and the depth-test /
face-culling toggles set in `Renderer::new` and `Renderer::render_viewport`. -/
structure GLState where
  viewport : ℤ × ℤ × ℤ × ℤ
  depthTest : Bool
  depthFunc : Nat
  cullFaceEnabled : Bool
  cullFaceMode : Nat
  frontFace : Nat
  deriving Repr, DecidableEq

/-- `egui::Rect`: an axis-aligned rectangle given by its min and max
corners, in UI points (`f32` in the source, idealised as `ℚ`). -/
structure Rect where
  minX : ℚ
  minY : ℚ
  maxX : ℚ
  maxY : ℚ
  deriving Repr, DecidableEq

/-- `egui::Rect::width`: `max.x - min.x`. -/
def Rect.width (r : Rect) : ℚ := r.maxX - r.minX

/-- `egui::Rect::height`: `max.y - min.y`. -/
def Rect.height (r : Rect) : ℚ := r.maxY - r.minY

/-- Rust `f32 as i32`: truncation toward zero, saturating at the `i32`
range bounds. -/
def ratAsI32 (q : ℚ) : ℤ :=
  let t : ℤ := if 0 ≤ q then ⌊q⌋ else ⌈q⌉
  max (-(2 ^ 31)) (min (2 ^ 31 - 1) t)

/-- Rust `u32 as i32`: two's-complement reinterpretation. -/
def u32AsI32 (n : Nat) : ℤ :=
  let m : Nat := n % 2 ^ 32
  if m < 2 ^ 31 then (m : ℤ) else (m : ℤ) - 2 ^ 32

/-- Events observable during one `Renderer::render_viewport` call:
the viewport saved at entry, the sub-viewport set for the rect, whether
the depth buffer was cleared, the operands handed to the aspect-ratio
division `rect.width() / rect.height()`, the rotation passed down into
the model-matrix computation, and whether the indexed cube draw was
issued. -/
structure RVTrace where
  savedViewport : ℤ × ℤ × ℤ × ℤ
  subViewport : ℤ × ℤ × ℤ × ℤ
  depthCleared : Bool
  aspectWidth : ℚ
  aspectHeight : ℚ
  rotationUsed : ℚ
  drawCalled : Bool
  deriving Repr, DecidableEq

namespace Renderer

/-- GPU state set up once by `Renderer::new` (renderer/mod.rs lines 26-31):
enable depth test, enable face culling, cull back faces, CCW = front. -/
def newGLSetup (s : GLState) : GLState :=
  { s with
    depthTest := true
    cullFaceEnabled := true
    cullFaceMode := glBACK
    frontFace := glCCW }

/-- `Renderer::update` state: the single `rotation` scalar held by the
Renderer (the `gl` and `cube` fields are shared handles that `update`
does not touch). -/
structure State where
  rotation : ℚ
  deriving Repr, DecidableEq

/-- `Renderer::update(delta)`: `self.rotation = delta;` (renderer/mod.rs
lines 42-44). -/
def update (r : State) (delta : ℚ) : State :=
  { r with rotation := delta }

/-- `Renderer::resize(width, height)`: `gl.viewport(0, 0, width as i32,
height as i32)` (renderer/mod.rs lines 47-52). -/
def resize (s : GLState) (width height : Nat) : GLState :=
  { s with viewport := (0, 0, u32AsI32 width, u32AsI32 height) }

/-- `Renderer::render_viewport(gl, rect, rotation)` (renderer/mod.rs
lines 55-122), as a transformer of the GPU state paired with a trace of
the call's events, mirroring the source statement for statement:
save the current viewport; set the viewport to the rect; enable depth
test with LESS; enable back-face culling; clear the depth buffer;
compute `aspect = rect.width() / rect.height()` (unconditionally — the
source contains no guard on the rect); build projection/view/model
matrices (the model-matrix algebra is embedded separately as
`modelMatrix` below); issue the cube draw; restore the saved viewport. -/
def render_viewport (s : GLState) (rect : Rect) (rotation : ℚ) :
    GLState × RVTrace :=
  let current_viewport := s.viewport
  let sub : ℤ × ℤ × ℤ × ℤ :=
    (ratAsI32 rect.minX, ratAsI32 rect.minY,
     ratAsI32 rect.width, ratAsI32 rect.height)
  let s1 : GLState := { s with viewport := sub }
  let s2 : GLState := { s1 with depthTest := true, depthFunc := glLESS }
  let s3 : GLState := { s2 with cullFaceEnabled := true, cullFaceMode := glBACK }
  let aspectW := rect.width
  let aspectH := rect.height
  let s4 : GLState := { s3 with viewport := current_viewport }
  (s4,
   { savedViewport := current_viewport
     subViewport := sub
     depthCleared := true
     aspectWidth := aspectW
     aspectHeight := aspectH
     rotationUsed := rotation
     drawCalled := true })

end Renderer

/-- GPU object bookkeeping for the shader module: the lists of currently
allocated shader and program object ids, and the next fresh id. -/
structure GLObjects where
  shaders : List Nat
  programs : List Nat
  nextId : Nat
  deriving Repr, DecidableEq

/-- The GL driver's behaviour on shader source, which is external to the
program: whether a given (stage, source) pair compiles, the corresponding
info log, whether a given pair of sources links, and the program info
log. `create_program` / `compile_shader` are embedded parametrically in
this environment. -/
structure ShaderEnv where
  compileOk : Nat → String → Bool
  shaderLog : Nat → String → String
  linkOk : String → String → Bool
  programLog : String → String → String

/-- `compile_shader(gl, shader_type, source)` (renderer/shader.rs lines
41-65): create a shader object, upload the source, compile; if the
compile status is false, fetch the log, delete the shader object and
return `Err("Shader compilation failed: " + log)`; otherwise return the
shader object. -/
def compile_shader (env : ShaderEnv) (st : GLObjects)
    (shaderType : Nat) (source : String) : GLObjects × Except String Nat :=
  let shader := st.nextId
  let st1 : GLObjects :=
    { st with shaders := shader :: st.shaders, nextId := st.nextId + 1 }
  if env.compileOk shaderType source then
    (st1, Except.ok shader)
  else
    let log := env.shaderLog shaderType source
    ({ st1 with shaders := st1.shaders.erase shader },
     Except.error ("Shader compilation failed: " ++ log))

/-- `create_program(gl, vertex_source, fragment_source)` (renderer/shader.rs
lines 6-37): create a program object first, then compile the vertex and
fragment stages (the `?` operator propagates a stage's error as an early
return), attach and link, delete the program and return
`Err("Program linking failed: " + log)` on link failure, and on success
delete the two stage objects and return the program. -/
def create_program (env : ShaderEnv) (st : GLObjects)
    (vertex_source fragment_source : String) : GLObjects × Except String Nat :=
  let program := st.nextId
  let st1 : GLObjects :=
    { st with programs := program :: st.programs, nextId := st.nextId + 1 }
  match compile_shader env st1 glVERTEX_SHADER vertex_source with
  | (st2, Except.error e) => (st2, Except.error e)
  | (st2, Except.ok vertex_shader) =>
    match compile_shader env st2 glFRAGMENT_SHADER fragment_source with
    | (st3, Except.error e) => (st3, Except.error e)
    | (st3, Except.ok fragment_shader) =>
      if env.linkOk vertex_source fragment_source then
        ({ st3 with
            shaders := (st3.shaders.erase vertex_shader).erase fragment_shader },
         Except.ok program)
      else
        let log := env.programLog vertex_source fragment_source
        ({ st3 with programs := st3.programs.erase program },
         Except.error ("Program linking failed: " ++ log))

/-- A driver environment in which every vertex-stage source fails to
compile with log `"0:1: syntax error"` and every fragment-stage source
compiles, modelling syntactically invalid vertex input. -/
def failingVertexEnv : ShaderEnv :=
  { compileOk := fun ty _ => ty != glVERTEX_SHADER
    shaderLog := fun _ _ => "0:1: syntax error"
    linkOk := fun _ _ => true
    programLog := fun _ _ => "" }

/-- A GL object state with nothing allocated. -/
def emptyGLObjects : GLObjects := { shaders := [], programs := [], nextId := 0 }

/-- The 24-vertex attribute array of `Cube::new` (renderer/cube.rs lines
100-131): 9 floats per vertex (position, normal, color), 4 vertices per
face, 6 faces, flat in memory exactly as in the source. -/
def cubeVertexData : List ℚ := [
  -- Front face (red)
  -(1/2), -(1/2),  1/2,  0,  0,  1,  1, 0, 0,
   1/2, -(1/2),  1/2,  0,  0,  1,  1, 0, 0,
   1/2,  1/2,  1/2,  0,  0,  1,  1, 0, 0,
  -(1/2),  1/2,  1/2,  0,  0,  1,  1, 0, 0,
  -- Back face (green)
  -(1/2), -(1/2), -(1/2),  0,  0, -1,  0, 1, 0,
   1/2, -(1/2), -(1/2),  0,  0, -1,  0, 1, 0,
   1/2,  1/2, -(1/2),  0,  0, -1,  0, 1, 0,
  -(1/2),  1/2, -(1/2),  0,  0, -1,  0, 1, 0,
  -- Top face (blue)
  -(1/2),  1/2,  1/2,  0,  1,  0,  0, 0, 1,
   1/2,  1/2,  1/2,  0,  1,  0,  0, 0, 1,
   1/2,  1/2, -(1/2),  0,  1,  0,  0, 0, 1,
  -(1/2),  1/2, -(1/2),  0,  1,  0,  0, 0, 1,
  -- Bottom face (yellow)
  -(1/2), -(1/2),  1/2,  0, -1,  0,  1, 1, 0,
   1/2, -(1/2),  1/2,  0, -1,  0,  1, 1, 0,
   1/2, -(1/2), -(1/2),  0, -1,  0,  1, 1, 0,
  -(1/2), -(1/2), -(1/2),  0, -1,  0,  1, 1, 0,
  -- Right face (magenta)
   1/2, -(1/2),  1/2,  1,  0,  0,  1, 0, 1,
   1/2, -(1/2), -(1/2),  1,  0,  0,  1, 0, 1,
   1/2,  1/2, -(1/2),  1,  0,  0,  1, 0, 1,
   1/2,  1/2,  1/2,  1,  0,  0,  1, 0, 1,
  -- Left face (cyan)
  -(1/2), -(1/2),  1/2, -1,  0,  0,  0, 1, 1,
  -(1/2), -(1/2), -(1/2), -1,  0,  0,  0, 1, 1,
  -(1/2),  1/2, -(1/2), -1,  0,  0,  0, 1, 1,
  -(1/2),  1/2,  1/2, -1,  0,  0,  0, 1, 1]

/-- The fixed 36-entry triangle index list of `Cube::new` (renderer/cube.rs
lines 133-140). -/
def cubeIndices : List Nat := [
  0,  1,  2,  2,  3,  0,   -- Front
  4,  6,  5,  4,  7,  6,   -- Back
  8,  9,  10, 10, 11, 8,   -- Top
  12, 14, 13, 12, 15, 14,  -- Bottom
  16, 17, 18, 18, 19, 16,  -- Right
  20, 22, 21, 20, 23, 22]  -- Left

/-- Position of vertex `i` in the attribute array (stride 9, offset 0). -/
def vertexPos (i : Nat) : ℚ × ℚ × ℚ :=
  (cubeVertexData.getD (9 * i) 0, cubeVertexData.getD (9 * i + 1) 0,
   cubeVertexData.getD (9 * i + 2) 0)

/-- Normal of vertex `i` in the attribute array (stride 9, offset 3). -/
def vertexNormal (i : Nat) : ℚ × ℚ × ℚ :=
  (cubeVertexData.getD (9 * i + 3) 0, cubeVertexData.getD (9 * i + 4) 0,
   cubeVertexData.getD (9 * i + 5) 0)

/-- Group a flat index list into the triangles of a `TRIANGLES` draw. -/
def triangleList : List Nat → List (Nat × Nat × Nat)
  | a :: b :: c :: rest => (a, b, c) :: triangleList rest
  | _ => []

/-- Componentwise difference of 3-vectors. -/
def vsub (u v : ℚ × ℚ × ℚ) : ℚ × ℚ × ℚ :=
  (u.1 - v.1, u.2.1 - v.2.1, u.2.2 - v.2.2)

/-- Cross product of 3-vectors. -/
def cross (u v : ℚ × ℚ × ℚ) : ℚ × ℚ × ℚ :=
  (u.2.1 * v.2.2 - u.2.2 * v.2.1,
   u.2.2 * v.1 - u.1 * v.2.2,
   u.1 * v.2.1 - u.2.1 * v.1)

/-- Dot product of 3-vectors. -/
def dot (u v : ℚ × ℚ × ℚ) : ℚ :=
  u.1 * v.1 + u.2.1 * v.2.1 + u.2.2 * v.2.2

/-- A triangle `(a, b, c)` over the cube's vertex array is wound
counter-clockwise as seen from outside the cube when the winding normal
`(pb - pa) × (pc - pa)` points the same way as the stored outward face
normal, i.e. their dot product is positive. -/
def triangleCCW (t : Nat × Nat × Nat) : Bool :=
  let pa := vertexPos t.1
  let pb := vertexPos t.2.1
  let pc := vertexPos t.2.2
  decide (0 < dot (cross (vsub pb pa) (vsub pc pa)) (vertexNormal t.1))

/-- An arbitrary initial GPU state used for concrete evaluations. -/
def initialGLState : GLState :=
  { viewport := (0, 0, 1280, 720)
    depthTest := false
    depthFunc := glLESS
    cullFaceEnabled := false
    cullFaceMode := glBACK
    frontFace := glCCW }

/-- A rect of height 0 (and positive width), the degenerate input of the
spec's guard requirement. -/
def degenerateRect : Rect := { minX := 0, minY := 0, maxX := 100, maxY := 0 }

/-- The homogeneous 4×4 axis-angle rotation matrix built by
`nalgebra_glm` (`Rotation3::from_axis_angle(axis, angle).to_homogeneous()`,
the Rodrigues formula), written over an arbitrary commutative ring with
`c`, `s` standing for the cosine and sine of the angle and `k` the unit
axis. -/
def axisAngleMat {α : Type} [CommRing α] (c s : α) (k : Fin 3 → α) :
    Matrix (Fin 4) (Fin 4) α :=
  let kx := k 0
  let ky := k 1
  let kz := k 2
  !![c + (1 - c) * kx * kx, (1 - c) * kx * ky - s * kz,
       (1 - c) * kx * kz + s * ky, 0;
     (1 - c) * ky * kx + s * kz, c + (1 - c) * ky * ky,
       (1 - c) * ky * kz - s * kx, 0;
     (1 - c) * kz * kx - s * ky, (1 - c) * kz * ky + s * kx,
       c + (1 - c) * kz * kz, 0;
     0, 0, 0, 1]

/-- `nalgebra_glm::rotate(m, angle, axis)`: right-multiplies the axis-angle
rotation onto `m`, i.e. returns `m * R(angle, axis)`. -/
def glmRotate {α : Type} [CommRing α] (m : Matrix (Fin 4) (Fin 4) α)
    (c s : α) (k : Fin 3 → α) : Matrix (Fin 4) (Fin 4) α :=
  m * axisAngleMat c s k

/-- The model matrix computed by `Renderer::render_viewport`
(renderer/mod.rs lines 100-109):
`rotate(rotate(identity, rotation, (0,1,0)), rotation * 0.7, (1,0,0))`,
with `cy, sy` the cosine and sine of `rotation` and `cx, sx` the cosine
and sine of `rotation * 0.7`. -/
def modelMatrix {α : Type} [CommRing α] (cy sy cx sx : α) :
    Matrix (Fin 4) (Fin 4) α :=
  glmRotate (glmRotate 1 cy sy ![0, 1, 0]) cx sx ![1, 0, 0]

/-- Reference rotation matrix about the Y axis (spec `RotateY`). -/
def rotY {α : Type} [CommRing α] (c s : α) : Matrix (Fin 4) (Fin 4) α :=
  !![c, 0, s, 0;
     0, 1, 0, 0;
     -s, 0, c, 0;
     0, 0, 0, 1]

/-- Reference rotation matrix about the X axis (spec `RotateX`). -/
def rotX {α : Type} [CommRing α] (c s : α) : Matrix (Fin 4) (Fin 4) α :=
  !![1, 0, 0, 0;
     0, c, -s, 0;
     0, s, c, 0;
     0, 0, 0, 1]

/-- Modelled from the spec's words (testable property for the rotation
composition): the reference matrix `RotateX(0.7r) ∘ RotateY(r) ∘ Identity`
with standard composition semantics — `Identity` applied first, then
`RotateY(r)`, then `RotateX(0.7r)` — i.e. the matrix product
`RotateX(0.7r) · RotateY(r) · I` acting on column vectors. `cy, sy` are
the cosine and sine of `r` and `cx, sx` those of `0.7r`. -/
def specComposedModel {α : Type} [CommRing α] (cy sy cx sx : α) :
    Matrix (Fin 4) (Fin 4) α :=
  rotX cx sx * (rotY cy sy * (1 : Matrix (Fin 4) (Fin 4) α))

/-- `AppState` (app.rs): the application's runtime data. -/
structure AppState where
  file_open_dialog : Bool
  playing : Bool
  mouse_pos : ℚ × ℚ
  status_text : String
  frame_count : Nat
  current_file : Option String
  deriving Repr, DecidableEq

namespace AppState

/-- `AppState::new`. -/
def new : AppState :=
  { file_open_dialog := false
    playing := false
    mouse_pos := (0, 0)
    status_text := "Ready"
    frame_count := 0
    current_file := none }

/-- `AppState::toggle_play`. -/
def toggle_play (a : AppState) : AppState := { a with playing := !a.playing }

/-- `AppState::toggle_playing` (alias of `toggle_play`). -/
def toggle_playing (a : AppState) : AppState := a.toggle_play

/-- `AppState::step`. -/
def step (a : AppState) : AppState := { a with frame_count := a.frame_count + 1 }

/-- `AppState::reset`. -/
def reset (a : AppState) : AppState := { a with frame_count := 0, playing := false }

end AppState

/-- The outcome of one `show_ui` frame (ui/mod.rs): the updated app state
and renderer, and the rotation value that `show_viewport`
(ui/gl_viewport.rs lines 8-30) passed to `Renderer::render_viewport` in
this frame. -/
structure FrameResult where
  appState : AppState
  renderer : Renderer.State
  viewportRotation : ℚ
  deriving Repr, DecidableEq

/-- The rotation-relevant core of `show_ui` (ui/mod.rs): the central
panel calls `show_viewport`, which passes
`app_state.frame_count as f32 * 0.01` to `render_viewport` (the
renderer's stored `rotation` field is not consulted); afterwards, if the
animation is playing, `app_state.step()` and
`renderer.update(app_state.frame_count as f32 * 0.01)` run. -/
def show_ui (a : AppState) (r : Renderer.State) : FrameResult :=
  let viewportRotation : ℚ := (a.frame_count : ℚ) * (1 / 100)
  if a.playing then
    let a1 := a.step
    let r1 := Renderer.update r ((a1.frame_count : ℚ) * (1 / 100))
    { appState := a1, renderer := r1, viewportRotation := viewportRotation }
  else
    { appState := a, renderer := r, viewportRotation := viewportRotation }

/-- The window-geometry choice in `App::resumed` (main.rs lines 62-64):
CLI arguments are compared against the clap default values (1280, 720);
a value equal to the default is replaced by the config value. -/
def chooseWindowSize (argWidth argHeight cfgWidth cfgHeight : Nat) :
    Nat × Nat :=
  ((if argWidth != 1280 then argWidth else cfgWidth),
   (if argHeight != 720 then argHeight else cfgHeight))

/-- `NonZeroU32::new`: `none` exactly when the argument is zero. -/
def nonZeroU32New (n : Nat) : Option Nat :=
  if n = 0 then none else some n

/-- The `WindowEvent::Resized` arm of `App::window_event` (main.rs lines
242-253): `gl_surface.resize(ctx, NonZeroU32::new(w).unwrap(),
NonZeroU32::new(h).unwrap())` followed by `renderer.resize(w, h)`.
`Option.none` models the panic of `unwrap` on a zero dimension; on
`some` the resulting GPU state of the renderer resize is returned. -/
def windowResizedHandler (s : GLState) (width height : Nat) :
    Option GLState :=
  match nonZeroU32New width, nonZeroU32New height with
  | some _, some _ => some (Renderer.resize s width height)
  | _, _ => none

/-- A driver environment in which every fragment-stage source fails to
compile with the same log, and every vertex-stage source compiles. -/
def failingFragmentEnv : ShaderEnv :=
  { compileOk := fun ty _ => ty != glFRAGMENT_SHADER
    shaderLog := fun _ _ => "0:1: syntax error"
    linkOk := fun _ _ => true
    programLog := fun _ _ => "" }

/-- Concrete run for the rotation-storage claim, frame 1: start from the
fresh `AppState::new` (frame 0, paused) and renderer rotation 0, press
Space (`toggle_playing`), then draw one frame. During this frame
`renderer.update` stores `1/100`. -/
def c5Frame1 : FrameResult :=
  show_ui (AppState.new.toggle_playing) { rotation := 0 }

/-- Concrete run, frame 2: after frame 1 the user presses Space
(pausing) and ArrowRight (`step`, advancing the frame counter without
an `update`), then the next frame is drawn. -/
def c5Frame2 : FrameResult :=
  show_ui ((c5Frame1.appState.toggle_playing).step) c5Frame1.renderer

/-- An app state that is currently playing, for witnessing the amended
rotation-storage claim. -/
def c5WitnessApp : AppState := { AppState.new with playing := true }

end Boilerplate

namespace Boilerplate

/-- Positions of the 24 cube vertices, read back from the flat attribute
array at stride 9. -/
theorem cubePos0 : vertexPos 0 = (-(1/2), -(1/2), 1/2) := rfl

theorem cubePos1 : vertexPos 1 = (1/2, -(1/2), 1/2) := rfl

theorem cubePos2 : vertexPos 2 = (1/2, 1/2, 1/2) := rfl

theorem cubePos3 : vertexPos 3 = (-(1/2), 1/2, 1/2) := rfl

theorem cubePos4 : vertexPos 4 = (-(1/2), -(1/2), -(1/2)) := rfl

theorem cubePos5 : vertexPos 5 = (1/2, -(1/2), -(1/2)) := rfl

theorem cubePos6 : vertexPos 6 = (1/2, 1/2, -(1/2)) := rfl

theorem cubePos7 : vertexPos 7 = (-(1/2), 1/2, -(1/2)) := rfl

theorem cubePos8 : vertexPos 8 = (-(1/2), 1/2, 1/2) := rfl

theorem cubePos9 : vertexPos 9 = (1/2, 1/2, 1/2) := rfl

theorem cubePos10 : vertexPos 10 = (1/2, 1/2, -(1/2)) := rfl

theorem cubePos11 : vertexPos 11 = (-(1/2), 1/2, -(1/2)) := rfl

theorem cubePos12 : vertexPos 12 = (-(1/2), -(1/2), 1/2) := rfl

theorem cubePos13 : vertexPos 13 = (1/2, -(1/2), 1/2) := rfl

theorem cubePos14 : vertexPos 14 = (1/2, -(1/2), -(1/2)) := rfl

theorem cubePos15 : vertexPos 15 = (-(1/2), -(1/2), -(1/2)) := rfl

theorem cubePos16 : vertexPos 16 = (1/2, -(1/2), 1/2) := rfl

theorem cubePos17 : vertexPos 17 = (1/2, -(1/2), -(1/2)) := rfl

theorem cubePos18 : vertexPos 18 = (1/2, 1/2, -(1/2)) := rfl

theorem cubePos19 : vertexPos 19 = (1/2, 1/2, 1/2) := rfl

theorem cubePos20 : vertexPos 20 = (-(1/2), -(1/2), 1/2) := rfl

theorem cubePos21 : vertexPos 21 = (-(1/2), -(1/2), -(1/2)) := rfl

theorem cubePos22 : vertexPos 22 = (-(1/2), 1/2, -(1/2)) := rfl

theorem cubePos23 : vertexPos 23 = (-(1/2), 1/2, 1/2) := rfl

/-- Normals of the 24 cube vertices, read back from the flat attribute
array at stride 9, offset 3. -/
theorem cubeNormal0 : vertexNormal 0 = (0, 0, 1) := rfl

theorem cubeNormal2 : vertexNormal 2 = (0, 0, 1) := rfl

theorem cubeNormal4 : vertexNormal 4 = (0, 0, -1) := rfl

theorem cubeNormal8 : vertexNormal 8 = (0, 1, 0) := rfl

theorem cubeNormal10 : vertexNormal 10 = (0, 1, 0) := rfl

theorem cubeNormal12 : vertexNormal 12 = (0, -1, 0) := rfl

theorem cubeNormal16 : vertexNormal 16 = (1, 0, 0) := rfl

theorem cubeNormal18 : vertexNormal 18 = (1, 0, 0) := rfl

theorem cubeNormal20 : vertexNormal 20 = (-1, 0, 0) := rfl

/-- The glm axis-angle rotation at the unit Y axis is the textbook Y
rotation matrix. -/
theorem axisAngleMat_yAxis {α : Type} [CommRing α] (c s : α) :
    axisAngleMat c s ![0, 1, 0] = rotY c s := by
  ext i j
  fin_cases i <;> fin_cases j <;> simp [axisAngleMat, rotY]

/-- The glm axis-angle rotation at the unit X axis is the textbook X
rotation matrix. -/
theorem axisAngleMat_xAxis {α : Type} [CommRing α] (c s : α) :
    axisAngleMat c s ![1, 0, 0] = rotX c s := by
  ext i j
  fin_cases i <;> fin_cases j <;> simp [axisAngleMat, rotX]

/-- The model matrix of the source is `RotY · RotX` (Y on the left,
because `glm::rotate` right-multiplies each new rotation onto the
accumulator). -/
theorem modelMatrix_eq_rotY_mul_rotX {α : Type} [CommRing α] (cy sy cx sx : α) :
    modelMatrix cy sy cx sx = rotY cy sy * rotX cx sx := by
  rw [modelMatrix, glmRotate, glmRotate, axisAngleMat_yAxis, axisAngleMat_xAxis,
    one_mul]

end Boilerplate

namespace Boilerplate

/-- C1: for every input rectangle and rotation, `Renderer::render_viewport`
leaves the GPU global viewport rectangle unchanged before vs. after the
call: the viewport saved at entry is restored exactly before return
(the mesh draw in step 5 is infallible in the source and the restore is
the unconditional last statement of the call). -/
theorem c1_render_viewport_restores_viewport (s : GLState) (rect : Rect)
    (rot : ℚ) :
    ((Renderer.render_viewport s rect rot).1).viewport = s.viewport ∧
      (Renderer.render_viewport s rect rot).2.savedViewport = s.viewport :=
  ⟨rfl, rfl⟩

/-- C2: evaluating `create_program` at a vertex source the driver rejects
(log `0:1: syntax error`): the failed shader object is deleted, but the
program object created at entry remains allocated (programs go from `[]`
to `[0]`), and the returned diagnostic is the stage-agnostic
`"Shader compilation failed: " ++ log` — the very same message a failing
fragment stage produces — so it names no stage kind. On a fragment-stage
failure the already-compiled vertex shader leaks as well. -/
theorem c2_stage_failure_leaks_program :
    (create_program failingVertexEnv emptyGLObjects "bad" "frag").2 =
        Except.error ("Shader compilation failed: " ++ "0:1: syntax error") ∧
      (create_program failingVertexEnv emptyGLObjects "bad" "frag").1.shaders = [] ∧
      (create_program failingVertexEnv emptyGLObjects "bad" "frag").1.programs = [0] ∧
      emptyGLObjects.programs = [] ∧
      (create_program failingFragmentEnv emptyGLObjects "vert" "bad").2 =
        (create_program failingVertexEnv emptyGLObjects "bad" "frag").2 ∧
      (create_program failingFragmentEnv emptyGLObjects "vert" "bad").1.shaders = [1] ∧
      (create_program failingFragmentEnv emptyGLObjects "vert" "bad").1.programs = [0] :=
  ⟨rfl, rfl, rfl, rfl, rfl, rfl, rfl⟩

/-- C3: `Renderer::render_viewport` contains no guard on the rectangle:
at a rect of height 0 the height-0 operands are passed to the aspect
computation `rect.width() / rect.height()` and the render is not skipped
(the cube draw is still issued). -/
theorem c3_zero_height_not_guarded :
    degenerateRect.height = 0 ∧
      (Renderer.render_viewport initialGLState degenerateRect 0).2.aspectHeight = 0 ∧
      (Renderer.render_viewport initialGLState degenerateRect 0).2.aspectWidth = 100 ∧
      (Renderer.render_viewport initialGLState degenerateRect 0).2.drawCalled = true := by
  refine ⟨?_, ?_, ?_, rfl⟩ <;>
    norm_num [Renderer.render_viewport, degenerateRect, Rect.width, Rect.height]

/-- C4 counterexample: at the rotation r = π (one of the inputs the claim
itself names), the model matrix computed by the source,
`rotate(rotate(I, r, Y), 0.7r, X)`, differs from the spec's reference
`RotateX(0.7r) ∘ RotateY(r) ∘ Identity` (the matrix product
`RotateX(0.7π) · RotateY(π) · I`): their row-1, column-2 entries are
`-sin(0.7π)` and `sin(0.7π)`, and `sin(0.7π) > 0`. -/
theorem c4_composed_order_counterexample :
    modelMatrix (Real.cos Real.pi) (Real.sin Real.pi)
        (Real.cos (0.7 * Real.pi)) (Real.sin (0.7 * Real.pi)) ≠
      specComposedModel (Real.cos Real.pi) (Real.sin Real.pi)
        (Real.cos (0.7 * Real.pi)) (Real.sin (0.7 * Real.pi)) := by
  intro h
  have h12 := congrArg (fun M => M 1 2) h
  rw [modelMatrix_eq_rotY_mul_rotX] at h12
  simp only [specComposedModel, mul_one] at h12
  have e1 : (rotY (Real.cos Real.pi) (Real.sin Real.pi) *
      rotX (Real.cos (0.7 * Real.pi)) (Real.sin (0.7 * Real.pi))) 1 2 =
      -Real.sin (0.7 * Real.pi) := by
    simp [rotY, rotX, Matrix.mul_apply, Fin.sum_univ_four]
  have e2 : (rotX (Real.cos (0.7 * Real.pi)) (Real.sin (0.7 * Real.pi)) *
      rotY (Real.cos Real.pi) (Real.sin Real.pi)) 1 2 =
      -Real.sin (0.7 * Real.pi) * Real.cos Real.pi := by
    simp [rotY, rotX, Matrix.mul_apply, Fin.sum_univ_four]
  have hsin : 0 < Real.sin (0.7 * Real.pi) :=
    Real.sin_pos_of_pos_of_lt_pi (by positivity)
      (by nlinarith [Real.pi_pos])
  rw [e1, e2, Real.cos_pi] at h12
  nlinarith [hsin]

/-- C4 amended: for every rotation r, the model matrix computed by
`Renderer::render_viewport` equals
`RotateY(r) ∘ RotateX(0.7r) ∘ Identity` — the X rotation (at 0.7× the Y
rate) applied first and the Y rotation applied second in the fixed
frame (equivalently, Y first then X about successively rotated body
axes), i.e. the matrix product `RotateY(r) · RotateX(0.7r) · I`, not
`RotateX(0.7r) · RotateY(r) · I`. -/
theorem c4_model_matrix_amended (r : ℝ) :
    modelMatrix (Real.cos r) (Real.sin r)
        (Real.cos (0.7 * r)) (Real.sin (0.7 * r)) =
      rotY (Real.cos r) (Real.sin r) *
        (rotX (Real.cos (0.7 * r)) (Real.sin (0.7 * r)) *
          (1 : Matrix (Fin 4) (Fin 4) ℝ)) := by
  rw [modelMatrix_eq_rotY_mul_rotX, mul_one]

end Boilerplate

namespace Boilerplate

/-- C5 counterexample: a reachable interaction refuting "the stored value
is the rotation used on the next viewport render". Start fresh, press
Space (play) and draw a frame — `update` stores `1/100`. Then press
Space (pause) and ArrowRight (`step`), and draw the next frame: the
stored rotation is still `1/100`, but the rotation handed to
`render_viewport` is `2/100`, because `show_viewport` recomputes it from
`frame_count` and never reads the Renderer's stored scalar. -/
theorem c5_stored_rotation_not_used :
    c5Frame1.renderer.rotation = 1 / 100 ∧
      c5Frame2.renderer.rotation = 1 / 100 ∧
      c5Frame2.viewportRotation = 1 / 50 ∧
      c5Frame2.viewportRotation ≠ c5Frame1.renderer.rotation := by
  norm_num [c5Frame1, c5Frame2, show_ui, AppState.new, AppState.toggle_playing,
    AppState.toggle_play, AppState.step, Renderer.update]

/-- C5 amended: `Renderer::update(r)` overwrites the Renderer's rotation
scalar with the absolute value r and does nothing else; but that scalar
is never read by the render path — `show_viewport` recomputes the
rotation from `frame_count` each frame. The two coincide on the next
render exactly when nothing else changes the frame counter in between:
from any playing state, the frame that follows a `show_ui` frame (which
called `update`) passes the just-stored value to `render_viewport`. -/
theorem c5_update_stores_amended (r : Renderer.State) (d : ℚ) (a : AppState)
    (h : a.playing = true) :
    Renderer.update r d = { rotation := d } ∧
      (show_ui (show_ui a r).appState (show_ui a r).renderer).viewportRotation =
        (show_ui a r).renderer.rotation := by
  refine ⟨rfl, ?_⟩
  simp [show_ui, h, AppState.step, Renderer.update]

/-- C5 witness: the amended claim instantiated at a playing app state,
rotation 0 and update argument 5. -/
theorem c5_update_stores_amended_witness :
    c5WitnessApp.playing = true ∧
      (Renderer.update { rotation := 0 } 5 = { rotation := 5 } ∧
        (show_ui (show_ui c5WitnessApp { rotation := 0 }).appState
            (show_ui c5WitnessApp { rotation := 0 }).renderer).viewportRotation =
          (show_ui c5WitnessApp { rotation := 0 }).renderer.rotation) :=
  ⟨rfl, c5_update_stores_amended { rotation := 0 } 5 c5WitnessApp rfl⟩

/-- C6: the window-geometry choice of `App::resumed` compares the CLI
value against the clap default with `args.width != 1280`, so an
explicitly requested width of 1280 (a positive, set value) is overridden
by the config value: requesting (1280, 500) with config (800, 600)
creates an 800×500 window, not the requested 1280×500. -/
theorem c6_explicit_default_width_overridden :
    chooseWindowSize 1280 500 800 600 = (800, 500) ∧
      (800, 500) ≠ (1280, 500) ∧ 0 < 1280 ∧ 0 < 500 := by decide

/-- C7: for any prior sequence of resize calls, the most recent call
determines the GPU viewport (`(0, 0, w, h)` of the last call), and
`Renderer::resize` is idempotent: applying it twice with the same size
yields exactly the state of applying it once. -/
theorem c7_resize_last_write_wins_and_idempotent (s : GLState)
    (prior : List (Nat × Nat)) (w h : Nat) :
    ((prior ++ [(w, h)]).foldl (fun st p => Renderer.resize st p.1 p.2) s).viewport
        = (0, 0, u32AsI32 w, u32AsI32 h) ∧
      Renderer.resize (Renderer.resize s w h) w h = Renderer.resize s w h := by
  refine ⟨?_, rfl⟩
  rw [List.foldl_append]
  rfl

/-- C8: the cube's 36-entry index list references only indices below 24,
and each of its 12 triangles is wound counter-clockwise as seen from
outside (the winding normal `(pb - pa) × (pc - pa)` has positive dot
product with the stored outward face normal), so with the back-face
culling and counter-clockwise front winding that `Renderer::new`
enables, no outward-facing cube triangle is discarded. -/
theorem c8_cube_winding_survives_culling :
    cubeIndices.length = 36 ∧
      cubeIndices.all (fun i => i < 24) = true ∧
      (triangleList cubeIndices).all triangleCCW = true ∧
      ∀ s : GLState, (Renderer.newGLSetup s).frontFace = glCCW ∧
        (Renderer.newGLSetup s).cullFaceEnabled = true ∧
        (Renderer.newGLSetup s).cullFaceMode = glBACK := by
  refine ⟨by decide, by decide, ?_, fun s => ⟨rfl, rfl, rfl⟩⟩
  simp only [cubeIndices, triangleList, List.all_cons, List.all_nil,
    Bool.and_eq_true, triangleCCW]
  norm_num [cubePos0, cubePos1, cubePos2, cubePos3, cubePos4, cubePos5,
    cubePos6, cubePos7, cubePos8, cubePos9, cubePos10, cubePos11, cubePos12,
    cubePos13, cubePos14, cubePos15, cubePos16, cubePos17, cubePos18,
    cubePos19, cubePos20, cubePos21, cubePos22, cubePos23,
    cubeNormal0, cubeNormal2, cubeNormal4, cubeNormal8, cubeNormal10,
    cubeNormal12, cubeNormal16, cubeNormal18, cubeNormal20,
    cross, vsub, dot]

/-- C9: the `WindowEvent::Resized` handler panics (modelled as `none`,
from `NonZeroU32::new(..).unwrap()`) exactly when the delivered width or
height is 0 — no resize and no skip happens in that case — and for
positive dimensions it does not panic and performs the resize. -/
theorem c9_resized_zero_panics (s : GLState) (w h : Nat) :
    (windowResizedHandler s w h = none ↔ w = 0 ∨ h = 0) ∧
      windowResizedHandler s (w + 1) (h + 1) =
        some (Renderer.resize s (w + 1) (h + 1)) := by
  constructor
  · cases w <;> cases h <;> simp [windowResizedHandler, nonZeroU32New]
  · simp [windowResizedHandler, nonZeroU32New]

/-- C10: `Renderer::render_viewport` restores only the saved viewport
rectangle; the depth-test enable with the LESS comparison and the
back-face-culling enable that it sets remain in effect after the call
returns, whatever they were before the call (they are never saved or
restored). -/
theorem c10_only_viewport_restored (s : GLState) (rect : Rect) (rot : ℚ) :
    ((Renderer.render_viewport s rect rot).1).viewport = s.viewport ∧
      ((Renderer.render_viewport s rect rot).1).depthTest = true ∧
      ((Renderer.render_viewport s rect rot).1).depthFunc = glLESS ∧
      ((Renderer.render_viewport s rect rot).1).cullFaceEnabled = true ∧
      ((Renderer.render_viewport s rect rot).1).cullFaceMode = glBACK :=
  ⟨rfl, rfl, rfl, rfl, rfl⟩

end Boilerplate
